import Mathlib

/-!
Verification development for the eventify-server repository.

Part 1 embeds the executable CORS middleware (`src/configs/cors.ts`).
Part 2 models the Authentication & Event-Ownership core described by the
repository's documentation (spec sections 3-4): the documentation specifies
this core as contracts, and the corresponding implementation files are not
part of the source tree given here, so the definitions are modelled from
the spec's words (each such definition says so in its doc comment).
-/

namespace Eventify

/-! ## Part 1: CORS configuration (`src/configs/cors.ts`) -/

/-- The slice of `process.env` read by `cors.ts`: `NODE_ENV`, `CLIENT_URL`,
`PRODUCTION_CLIENT_URL`.  A variable is `none` when unset. -/
structure Env where
  nodeEnv : Option String
  clientUrl : Option String
  productionClientUrl : Option String
deriving DecidableEq

/-- JavaScript `v || d` on an environment string: the default is taken both
when the variable is unset and when it is the empty string (falsy). -/
def envOr (v : Option String) (d : String) : String :=
  match v with
  | none => d
  | some s => if s = "" then d else s

/-- Outcome of the dynamic origin callback in `getCORSOptions`:
`callback(null, true)` or `callback(new Error(msg))`. -/
inductive CorsDecision where
  | allow : CorsDecision
  | deny (msg : String) : CorsDecision
deriving DecidableEq

/-- The `origin` field of the options object: a static list (production
branch) or the dynamic decision function (development branch). -/
inductive CORSOrigin where
  | staticList (origins : List String) : CORSOrigin
  | dynamic (f : Option String → CorsDecision) : CORSOrigin

/-- The options record built by `getCORSOptions` (cors.ts lines 11-18). -/
structure CORSOptions where
  origin : CORSOrigin
  credentials : Bool
  methods : List String
  allowedHeaders : List String
  exposedHeaders : List String
  maxAge : Nat

/-- The `allowedOrigins` array of `getCORSOptions` (cors.ts lines 26-33):
`CLIENT_URL` (default `http://localhost:8080`) followed by four fixed
localhost origins. -/
def allowedOrigins (env : Env) : List String :=
  [ envOr env.clientUrl "http://localhost:8080"
  , "http://localhost:3000"
  , "http://localhost:8080"
  , "http://127.0.0.1:3000"
  , "http://127.0.0.1:8080" ]

/-- The dynamic origin callback of the development branch (cors.ts lines
50-57): `if (!origin || allowedOrigins.includes(origin))` allow, else fail
with `CORS policy: Origin not allowed`.  An absent header is `none`; the
JavaScript falsiness test `!origin` also accepts the empty string. -/
def devOriginDecision (env : Env) (origin : Option String) : CorsDecision :=
  let o := origin.getD ""
  if o = "" ∨ o ∈ allowedOrigins env then CorsDecision.allow
  else CorsDecision.deny "CORS policy: Origin not allowed"

/-- `getCORSOptions` (cors.ts lines 23-64). -/
def getCORSOptions (env : Env) : CORSOptions :=
  let nodeEnv := envOr env.nodeEnv "development"
  let clientUrl := envOr env.clientUrl "http://localhost:8080"
  if nodeEnv = "production" then
    { origin := CORSOrigin.staticList [envOr env.productionClientUrl clientUrl]
    , credentials := true
    , methods := ["GET", "POST", "PUT", "DELETE", "PATCH", "OPTIONS"]
    , allowedHeaders := ["Content-Type", "Authorization", "X-Requested-With"]
    , exposedHeaders := ["X-Total-Count", "X-Page-Count"]
    , maxAge := 86400 }
  else
    { origin := CORSOrigin.dynamic (devOriginDecision env)
    , credentials := true
    , methods := ["GET", "POST", "PUT", "DELETE", "PATCH", "OPTIONS"]
    , allowedHeaders := ["Content-Type", "Authorization", "X-Requested-With", "X-Custom-Header"]
    , exposedHeaders := ["X-Total-Count", "X-Page-Count"]
    , maxAge := 3600 }

/-- `pat` occurs as a contiguous run inside `s` (JavaScript
`String.prototype.includes`). -/
def occursIn (pat : List Char) : List Char → Bool
  | [] => pat.isEmpty
  | c :: rest => pat.isPrefixOf (c :: rest) || occursIn pat rest

/-- JavaScript `s.includes(pat)`. -/
def strIncludes (s pat : String) : Bool :=
  occursIn pat.toList s.toList

/-- What `corsErrorHandler` does with an incoming error: send a
`status(403).json({error, message})` response, or forward to `next(err)`. -/
inductive HandlerOutcome where
  | respond (status : Nat) (error : String) (message : String) : HandlerOutcome
  | passNext (errMsg : String) : HandlerOutcome
deriving DecidableEq

/-- `corsErrorHandler` (cors.ts lines 82-100): if the error message contains
`CORS`, reply 403 with `error: 'CORS policy violation'` and a message that
is `'Access denied'` in production and the original message otherwise;
all other errors go to `next(err)`. -/
def corsErrorHandler (env : Env) (errMsg : String) : HandlerOutcome :=
  if strIncludes errMsg "CORS" then
    HandlerOutcome.respond 403 "CORS policy violation"
      (if env.nodeEnv = some "production" then "Access denied" else errMsg)
  else
    HandlerOutcome.passNext errMsg

end Eventify

namespace Eventify

/-! ## Part 2: Authentication & Event-Ownership core

The repository ships this core only as documentation (spec sections 3-4);
every definition below is modelled from the spec's words, as its doc
comment records. -/

/-- Modelled from the spec: account status, one of
`{Unverified, Active, Locked}` (spec section 3, Account). -/
inductive AccountStatus where
  | unverified : AccountStatus
  | active : AccountStatus
  | locked : AccountStatus
deriving DecidableEq

/-- Modelled from the spec: an Account record — normalized email, display
name, password hash, status, failed-login counter, lock-expiry instant
(spec section 3, Account).  Instants are seconds as naturals. -/
structure Account where
  email : String
  displayName : String
  passwordHash : String
  status : AccountStatus
  failedCount : Nat
  lockExpiry : Option Nat
deriving DecidableEq

/-- Modelled from the spec: email comparison is case-insensitive and the
store retains the lowercase normalized form (spec sections 3 and 4.1). -/
def normalizeEmail (e : String) : String :=
  String.mk (e.data.map Char.toLower)

/-- Modelled from the spec: the salted slow password hash is an external
collaborator (spec section 4.1); it is modelled by an injective tagging
function, which preserves exactly the contract the core relies on
(equal hashes iff equal passwords). -/
def hashPassword (p : String) : String :=
  "bcrypt$" ++ p

/-- Modelled from the spec: `verifyPassword(account, passwordPlain)` of the
Credential Store (spec section 4.1). -/
def verifyPassword (a : Account) (p : String) : Prop :=
  a.passwordHash = hashPassword p

instance (a : Account) (p : String) : Decidable (verifyPassword a p) :=
  inferInstanceAs (Decidable (a.passwordHash = hashPassword p))

/-- Modelled from the spec: `recordFailedLogin` — increments the counter and
transitions to Locked with lock-expiry now+15 minutes when the counter
reaches 5 (spec section 4.1). -/
def recordFailedLogin (now : Nat) (a : Account) : Account :=
  let c := a.failedCount + 1
  if 5 ≤ c then
    { a with failedCount := c, status := AccountStatus.locked, lockExpiry := some (now + 900) }
  else
    { a with failedCount := c }

/-- Modelled from the spec: `recordSuccessfulLogin` — resets the counter and
clears the lock (spec section 4.1). -/
def recordSuccessfulLogin (a : Account) : Account :=
  { a with failedCount := 0, lockExpiry := none, status := AccountStatus.active }

/-- Modelled from the spec: a OneTimeCode — code value, issued-at,
expires-at (issued-at + 10 minutes), attempt counter, consumed flag (spec
section 3, OneTimeCode).  The owning account is the key under which the
ledger stores the code. -/
structure OneTimeCode where
  value : String
  issuedAt : Nat
  expiresAt : Nat
  attempts : Nat
  consumed : Bool
deriving DecidableEq

/-- A code is live when it is unconsumed and unexpired (spec section 3). -/
def OneTimeCode.isLive (c : OneTimeCode) (now : Nat) : Bool :=
  !c.consumed && decide (now < c.expiresAt)

/-- Modelled from the spec: issuing a new code supersedes (invalidates) any
prior unconsumed code for the account (spec section 4.2); an invalidated
code is logically discarded, modelled by forcing its expiry into the past
so that verifying it afterwards reports `Expired`. -/
def supersede (c : OneTimeCode) : OneTimeCode :=
  if c.consumed then c else { c with expiresAt := 0 }

/-- Modelled from the spec: `issue(account)` of the OTP Ledger — supersedes
any prior unconsumed code, sets expiry = now + 10 minutes, resets the
attempt counter to 0 (spec section 4.2).  The account's history list keeps
the newest code first. -/
def otpIssue (codes : List OneTimeCode) (value : String) (now : Nat) : List OneTimeCode :=
  { value := value, issuedAt := now, expiresAt := now + 600, attempts := 0, consumed := false }
    :: codes.map supersede

/-- Modelled from the spec: outcomes of `verify(account, candidateCode)`
(spec section 4.2). -/
inductive VerifyResult where
  | success : VerifyResult
  | codeNotFound : VerifyResult
  | expired : VerifyResult
  | attemptsExhausted : VerifyResult
  | mismatch : VerifyResult
deriving DecidableEq

/-- Rewrites the first element satisfying `p` with `f`, leaving the rest of
the list unchanged. -/
def updateFirst (p : OneTimeCode → Bool) (f : OneTimeCode → OneTimeCode) :
    List OneTimeCode → List OneTimeCode
  | [] => []
  | c :: rest => if p c then f c :: rest else c :: updateFirst p f rest

/-- Modelled from the spec: `verify(account, candidateCode)` of the OTP
Ledger (spec section 4.2).  The candidate is first resolved against the
account's code records (newest first): a consumed record replays as
`NotFound`, a superseded or stale record reports `Expired`, and a live
record with 5 failed attempts already recorded is invalidated and reports
`AttemptsExhausted` even for the correct value; otherwise the match
consumes the code and succeeds.  When the candidate matches no record but
a live code exists, the call counts against that live code: its attempt
counter is incremented regardless of outcome and the call reports
`Mismatch`, or `AttemptsExhausted` once 5 failed attempts are reached.
With no record to resolve, the call reports `NotFound`. -/
def otpVerify (codes : List OneTimeCode) (candidate : String) (now : Nat) :
    List OneTimeCode × VerifyResult :=
  match codes.find? (fun r => decide (r.value = candidate)) with
  | some r =>
    if r.consumed then (codes, VerifyResult.codeNotFound)
    else if r.expiresAt ≤ now then (codes, VerifyResult.expired)
    else if 5 ≤ r.attempts then
      (updateFirst (fun x => decide (x.value = candidate))
        (fun x => { x with attempts := x.attempts + 1 }) codes, VerifyResult.attemptsExhausted)
    else
      (updateFirst (fun x => decide (x.value = candidate))
        (fun x => { x with attempts := x.attempts + 1, consumed := true }) codes,
       VerifyResult.success)
  | none =>
    match codes.find? (fun r => r.isLive now) with
    | some live =>
      let codes' := updateFirst (fun r => r.isLive now)
        (fun r => { r with attempts := r.attempts + 1 }) codes
      if 5 ≤ live.attempts + 1 then (codes', VerifyResult.attemptsExhausted)
      else (codes', VerifyResult.mismatch)
    | none => (codes, VerifyResult.codeNotFound)

/-- Modelled from the spec: a Session — subject account reference,
issued-at, expires-at = issued-at + 12 hours (spec section 3, Session). -/
structure Session where
  subject : String
  issuedAt : Nat
  expiresAt : Nat
deriving DecidableEq

/-- Modelled from the spec: `issue(account)` of the Session Issuer (spec
section 4.3). -/
def issueSession (subject : String) (now : Nat) : Session :=
  { subject := subject, issuedAt := now, expiresAt := now + 43200 }

/-- Modelled from the spec: the persistent authentication state — accounts
keyed by normalized email, and each account's OneTimeCode records (newest
first). -/
structure AuthState where
  accounts : String → Option Account
  codes : String → List OneTimeCode

/-- Store `a` under key `k`. -/
def AuthState.setAccount (st : AuthState) (k : String) (a : Account) : AuthState :=
  { st with accounts := fun e => if e = k then some a else st.accounts e }

/-- Replace the code records stored under key `k`. -/
def AuthState.setCodes (st : AuthState) (k : String) (cs : List OneTimeCode) : AuthState :=
  { st with codes := fun e => if e = k then cs else st.codes e }

/-- Modelled from the spec: outcomes of `login(email, password)` under the
tie-break policy of spec section 4.4 — account-not-found and
wrong-password both surface as the generic `InvalidCredentials`, and only
the Locked case is distinguishable, carrying the lock-expiry instant. -/
inductive LoginResult where
  | ok (s : Session) : LoginResult
  | invalidCredentials : LoginResult
  | lockedErr (lockExpiresAt : Nat) : LoginResult
deriving DecidableEq

/-- Password check and bookkeeping shared by the login paths: on match,
`recordSuccessfulLogin` and a fresh Session; on mismatch,
`recordFailedLogin` and the generic failure (spec section 4.4, login). -/
def loginVerify (st : AuthState) (k : String) (a : Account) (pw : String) (now : Nat) :
    AuthState × LoginResult :=
  if verifyPassword a pw then
    (st.setAccount k (recordSuccessfulLogin a), LoginResult.ok (issueSession k now))
  else
    (st.setAccount k (recordFailedLogin now a), LoginResult.invalidCredentials)

/-- Modelled from the spec: `login(email, password)` (spec section 4.4) —
no matching Active account surfaces as the generic `InvalidCredentials`
(tie-break policy, section 4.4); a Locked account with the lock-expiry in
the future fails with the distinguishable Locked error carrying that
instant; an elapsed lock auto-transitions the account to Active and
proceeds with password verification. -/
def login (st : AuthState) (email pw : String) (now : Nat) : AuthState × LoginResult :=
  let k := normalizeEmail email
  match st.accounts k with
  | none => (st, LoginResult.invalidCredentials)
  | some a =>
    match a.status with
    | AccountStatus.unverified => (st, LoginResult.invalidCredentials)
    | AccountStatus.locked =>
      let exp := a.lockExpiry.getD 0
      if now < exp then (st, LoginResult.lockedErr exp)
      else loginVerify st k { a with status := AccountStatus.active, lockExpiry := none } pw now
    | AccountStatus.active => loginVerify st k a pw now

/-- Modelled from the spec: outcomes of `register` (spec section 4.4). -/
inductive RegisterResult where
  | ok : RegisterResult
  | duplicateEmail : RegisterResult
deriving DecidableEq

/-- A freshly registered Unverified account (spec section 4.4, register). -/
def freshAccount (k password displayName : String) : Account :=
  { email := k, displayName := displayName, passwordHash := hashPassword password
  , status := AccountStatus.unverified, failedCount := 0, lockExpiry := none }

/-- Modelled from the spec: `register(email, password, displayName)` (spec
section 4.4) — `DuplicateEmail` exactly when an account with the
normalized email already exists and is Active; an existing Unverified
account is kept and a code is re-issued (idempotent re-registration);
otherwise (no account, or a non-Active leftover) an Unverified account is
created and a OneTimeCode issued.  `codeValue` stands for the
cryptographically random 6-digit value produced by the external
generator. -/
def register (st : AuthState) (email password displayName codeValue : String) (now : Nat) :
    AuthState × RegisterResult :=
  let k := normalizeEmail email
  match st.accounts k with
  | some a =>
    match a.status with
    | AccountStatus.active => (st, RegisterResult.duplicateEmail)
    | AccountStatus.unverified =>
      (st.setCodes k (otpIssue (st.codes k) codeValue now), RegisterResult.ok)
    | AccountStatus.locked =>
      ((st.setAccount k (freshAccount k password displayName)).setCodes k
        (otpIssue (st.codes k) codeValue now), RegisterResult.ok)
  | none =>
    ((st.setAccount k (freshAccount k password displayName)).setCodes k
      (otpIssue (st.codes k) codeValue now), RegisterResult.ok)

/-- Modelled from the spec: actions decided by the Event Ownership Guard
(spec section 4.5). -/
inductive EventAction where
  | read : EventAction
  | update : EventAction
  | delete : EventAction
  | inviteParticipants : EventAction
  | removeParticipant : EventAction
deriving DecidableEq

/-- The four creator-only mutating actions (spec section 4.5). -/
def EventAction.isMutating : EventAction → Bool
  | EventAction.read => false
  | _ => true

/-- Modelled from the spec: guard decisions (spec section 4.5). -/
inductive AuthzResult where
  | allowed : AuthzResult
  | unauthorized : AuthzResult
  | notFound : AuthzResult
deriving DecidableEq

/-- Modelled from the spec: an Event — id, title (1-100 chars), optional
description, start/end instants (end strictly after start), immutable
creator, participant set without duplicates (spec section 3, Event).
Participants are account keys (normalized emails). -/
structure Event where
  id : Nat
  title : String
  description : Option String
  startT : Nat
  endT : Nat
  creator : String
  participants : List String
deriving DecidableEq

/-- Modelled from the spec: `authorize(action, session, event)` (spec
section 4.5) — `Read` is allowed to the creator or any participant;
`Update`/`Delete`/`InviteParticipants`/`RemoveParticipant` only to the
creator; `NotFound` is answered both for an unresolved event id and
wherever the policy hides the event's existence from non-participants
(spec section 7), so a participant who is not the creator receives
`Unauthorized` and a stranger receives `NotFound`. -/
def authorize (action : EventAction) (session : Session) (ev : Option Event) : AuthzResult :=
  match ev with
  | none => AuthzResult.notFound
  | some e =>
    match action with
    | EventAction.read =>
      if session.subject = e.creator ∨ session.subject ∈ e.participants then
        AuthzResult.allowed
      else AuthzResult.notFound
    | _ =>
      if session.subject = e.creator then AuthzResult.allowed
      else if session.subject ∈ e.participants then AuthzResult.unauthorized
      else AuthzResult.notFound

/-- Modelled from the spec: outcomes of the event operations (spec
sections 4.5 and 7). -/
inductive EventResult where
  | ok : EventResult
  | validationError : EventResult
  | unauthorizedErr : EventResult
  | notFoundErr : EventResult
  | alreadyInvited : EventResult
  | selfInvite : EventResult
  | invalidEmail : EventResult
  | capacityExceeded : EventResult
deriving DecidableEq

/-- Title must be 1-100 characters (spec section 3, Event). -/
def validTitle (t : String) : Bool :=
  decide (1 ≤ t.length) && decide (t.length ≤ 100)

/-- Modelled from the spec: syntactic email validity (spec section 4.5); the
spec leaves the exact syntax to the validator, modelled as requiring an
`@`. -/
def validEmailSyntax (e : String) : Bool :=
  strIncludes e "@"

/-- The event store: events by id. -/
def setEvent (evs : Nat → Option Event) (i : Nat) (e : Option Event) : Nat → Option Event :=
  fun j => if j = i then e else evs j

/-- Modelled from the spec: `createEvent(session, title, description, start,
end, ...)` (spec sections 4.5, 6 and 8) — the title must be 1-100 chars
and `end` strictly after `start`; violating input fails with
`ValidationError` and persists nothing; otherwise the event is stored with
the session's subject as creator and an empty participant set. -/
def createEvent (evs : Nat → Option Event) (session : Session) (newId : Nat)
    (title : String) (descr : Option String) (startT endT : Nat) :
    (Nat → Option Event) × EventResult :=
  if validTitle title = false then (evs, EventResult.validationError)
  else if endT ≤ startT then (evs, EventResult.validationError)
  else
    (setEvent evs newId (some
      { id := newId, title := title, description := descr, startT := startT, endT := endT
      , creator := session.subject, participants := [] }), EventResult.ok)

/-- A partial update of an event's mutable fields (spec section 6,
`updateEvent(session, eventId, patch)`). -/
structure EventPatch where
  title : Option String
  description : Option String
  startT : Option Nat
  endT : Option Nat

/-- Apply a patch, keeping unpatched fields. -/
def applyPatch (e : Event) (p : EventPatch) : Event :=
  { e with
      title := p.title.getD e.title
    , description := match p.description with
        | some d => some d
        | none => e.description
    , startT := p.startT.getD e.startT
    , endT := p.endT.getD e.endT }

/-- Modelled from the spec: `updateEvent(session, eventId, patch)` (spec
sections 4.5 and 8) — guarded by the Event Ownership Guard; the patched
event must still satisfy the title and `end > start` validation, otherwise
nothing is persisted. -/
def updateEvent (evs : Nat → Option Event) (session : Session) (i : Nat) (p : EventPatch) :
    (Nat → Option Event) × EventResult :=
  match evs i with
  | none => (evs, EventResult.notFoundErr)
  | some e =>
    match authorize EventAction.update session (some e) with
    | AuthzResult.allowed =>
      let e' := applyPatch e p
      if validTitle e'.title = false then (evs, EventResult.validationError)
      else if e'.endT ≤ e'.startT then (evs, EventResult.validationError)
      else (setEvent evs i (some e'), EventResult.ok)
    | AuthzResult.unauthorized => (evs, EventResult.unauthorizedErr)
    | AuthzResult.notFound => (evs, EventResult.notFoundErr)

/-- Modelled from the spec: `deleteEvent(session, eventId)` (spec sections
4.5 and 8) — deletion only by the creator. -/
def deleteEvent (evs : Nat → Option Event) (session : Session) (i : Nat) :
    (Nat → Option Event) × EventResult :=
  match evs i with
  | none => (evs, EventResult.notFoundErr)
  | some e =>
    match authorize EventAction.delete session (some e) with
    | AuthzResult.allowed => (setEvent evs i none, EventResult.ok)
    | AuthzResult.unauthorized => (evs, EventResult.unauthorizedErr)
    | AuthzResult.notFound => (evs, EventResult.notFoundErr)

/-- Modelled from the spec: `inviteParticipants(session, eventId, emails)`
(spec section 4.5) — guarded; each email syntactically valid, no
self-invite of the creator, no duplicate invite, and a participant ceiling
of 1000. -/
def inviteParticipants (evs : Nat → Option Event) (session : Session) (i : Nat)
    (emails : List String) : (Nat → Option Event) × EventResult :=
  match evs i with
  | none => (evs, EventResult.notFoundErr)
  | some e =>
    match authorize EventAction.inviteParticipants session (some e) with
    | AuthzResult.allowed =>
      let ms := (emails.map normalizeEmail).eraseDups
      if ms.any (fun m => !validEmailSyntax m) then (evs, EventResult.invalidEmail)
      else if e.creator ∈ ms then (evs, EventResult.selfInvite)
      else if ms.any (fun m => decide (m ∈ e.participants)) then (evs, EventResult.alreadyInvited)
      else if 1000 < e.participants.length + ms.length then (evs, EventResult.capacityExceeded)
      else
        (setEvent evs i (some { e with participants := e.participants ++ ms }), EventResult.ok)
    | AuthzResult.unauthorized => (evs, EventResult.unauthorizedErr)
    | AuthzResult.notFound => (evs, EventResult.notFoundErr)

/-- Modelled from the spec: `removeParticipant(session, eventId, accountId)`
(spec sections 4.5 and 6) — guarded; removes the given participant. -/
def removeParticipant (evs : Nat → Option Event) (session : Session) (i : Nat)
    (accountId : String) : (Nat → Option Event) × EventResult :=
  match evs i with
  | none => (evs, EventResult.notFoundErr)
  | some e =>
    match authorize EventAction.removeParticipant session (some e) with
    | AuthzResult.allowed =>
      if accountId ∈ e.participants then
        (setEvent evs i (some { e with participants := e.participants.erase accountId }),
         EventResult.ok)
      else (evs, EventResult.notFoundErr)
    | AuthzResult.unauthorized => (evs, EventResult.unauthorizedErr)
    | AuthzResult.notFound => (evs, EventResult.notFoundErr)

/-- The reachable states of one account's OTP ledger: starting empty, codes
are issued and verified at nondecreasing instants, and time may pass (spec
sections 4.2 and 5: expiry is checked lazily at verification time). -/
inductive LedgerReach : List OneTimeCode → Nat → Prop where
  | init : LedgerReach [] 0
  | issue (codes : List OneTimeCode) (t : Nat) (v : String) (now : Nat) :
      LedgerReach codes t → t ≤ now → LedgerReach (otpIssue codes v now) now
  | verify (codes : List OneTimeCode) (t : Nat) (cand : String) (now : Nat) :
      LedgerReach codes t → t ≤ now → LedgerReach (otpVerify codes cand now).1 now
  | tick (codes : List OneTimeCode) (t : Nat) (now : Nat) :
      LedgerReach codes t → t ≤ now → LedgerReach codes now

/-- The first match of `p` is consumed: the record that a verification call
for this candidate would resolve is already spent. -/
def firstMatchConsumed (codes : List OneTimeCode) (cand : String) : Prop :=
  ∃ r, codes.find? (fun x => decide (x.value = cand)) = some r ∧ r.consumed = true

/-- Iterated login attempts with the same credentials at the given
instants, keeping only the resulting state. -/
def loginN (st : AuthState) (e pw : String) (ts : List Nat) : AuthState :=
  ts.foldl (fun s t => (login s e pw t).1) st

/-- Every persisted event satisfies `end > start` (spec section 3,
Event invariant). -/
def EventsInvariant (evs : Nat → Option Event) : Prop :=
  ∀ i e, evs i = some e → e.startT < e.endT

end Eventify

namespace Eventify

/-! ### Helper lemmas -/

theorem updateFirst_countP_le (p q : OneTimeCode → Bool) (f : OneTimeCode → OneTimeCode)
    (l : List OneTimeCode) (h : ∀ c, p (f c) = true → p c = true) :
    (updateFirst q f l).countP p ≤ l.countP p := by
  induction l with
  | nil => simp [updateFirst]
  | cons c rest ih =>
    by_cases hq : q c
    · simp only [updateFirst, if_pos hq]
      rw [List.countP_cons, List.countP_cons]
      refine Nat.add_le_add (le_refl _) ?_
      by_cases hp : p (f c) = true
      · simp [hp, h c hp]
      · simp only [Bool.not_eq_true] at hp
        simp [hp]
    · simp only [updateFirst, if_neg hq]
      rw [List.countP_cons, List.countP_cons]
      exact Nat.add_le_add ih (le_refl _)

theorem isLive_mono (c : OneTimeCode) (t now : Nat) (h : t ≤ now)
    (hl : c.isLive now = true) : c.isLive t = true := by
  simp only [OneTimeCode.isLive, Bool.and_eq_true, Bool.not_eq_true', decide_eq_true_eq] at hl ⊢
  exact ⟨hl.1, lt_of_le_of_lt h hl.2⟩

theorem supersede_value (c : OneTimeCode) : (supersede c).value = c.value := by
  unfold supersede
  by_cases h : c.consumed <;> simp [h]

theorem supersede_dead (c : OneTimeCode) (now : Nat) : (supersede c).isLive now = false := by
  unfold supersede
  by_cases h : c.consumed <;> simp [OneTimeCode.isLive, h]

theorem otpIssue_countP_live (l : List OneTimeCode) (v : String) (now : Nat) :
    (otpIssue l v now).countP (fun c => c.isLive now) = 1 := by
  unfold otpIssue
  rw [List.countP_cons_of_pos]
  · have hz : (l.map supersede).countP (fun c => c.isLive now) = 0 := by
      rw [List.countP_eq_zero]
      intro x hx
      obtain ⟨c, _, rfl⟩ := List.mem_map.mp hx
      simp [supersede_dead]
    rw [hz]
  · simp only [OneTimeCode.isLive, Bool.and_eq_true, Bool.not_eq_true', decide_eq_true_eq]
    refine ⟨by simp, by omega⟩

theorem otpVerify_countP_live_le (codes : List OneTimeCode) (cand : String) (now now' : Nat) :
    ((otpVerify codes cand now).1).countP (fun c => c.isLive now') ≤
      codes.countP (fun c => c.isLive now') := by
  unfold otpVerify
  cases hf : codes.find? (fun r => decide (r.value = cand)) with
  | some r =>
    by_cases h1 : r.consumed
    · simp [h1]
    · by_cases h2 : r.expiresAt ≤ now
      · simp [h1, h2]
      · by_cases h3 : 5 ≤ r.attempts
        · simp only [h1, h2, h3, if_true, if_false, Bool.false_eq_true]
          apply updateFirst_countP_le
          intro c hc
          simpa [OneTimeCode.isLive] using hc
        · simp only [h1, h2, h3, if_true, if_false, Bool.false_eq_true]
          apply updateFirst_countP_le
          intro c hc
          simp [OneTimeCode.isLive] at hc
  | none =>
    cases hl : codes.find? (fun r => r.isLive now) with
    | some live =>
      by_cases h4 : 5 ≤ live.attempts + 1
      · simp only [h4, if_true]
        apply updateFirst_countP_le
        intro c hc
        simpa [OneTimeCode.isLive] using hc
      · simp only [h4, if_false]
        apply updateFirst_countP_le
        intro c hc
        simpa [OneTimeCode.isLive] using hc
    | none => exact le_refl _

theorem find?_updateFirst_self (p : OneTimeCode → Bool) (f : OneTimeCode → OneTimeCode)
    (l : List OneTimeCode) (hf : ∀ c, p c = true → p (f c) = true) :
    (updateFirst p f l).find? p = (l.find? p).map f := by
  induction l with
  | nil => simp [updateFirst]
  | cons c rest ih =>
    by_cases hc : p c = true
    · rw [updateFirst, if_pos hc, List.find?_cons_of_pos _ (hf c hc),
        List.find?_cons_of_pos _ hc]
      rfl
    · rw [updateFirst, if_neg hc, List.find?_cons_of_neg _ hc,
        List.find?_cons_of_neg _ hc, ih]

theorem find?_updateFirst_mem (pv q : OneTimeCode → Bool) (f : OneTimeCode → OneTimeCode)
    (l : List OneTimeCode) (r : OneTimeCode) (hpf : ∀ c, pv (f c) = pv c)
    (hr : l.find? pv = some r) :
    (updateFirst q f l).find? pv = some r ∨ (updateFirst q f l).find? pv = some (f r) := by
  induction l with
  | nil => simp at hr
  | cons c rest ih =>
    by_cases hq : q c = true
    · rw [updateFirst, if_pos hq]
      by_cases hp : pv c = true
      · rw [List.find?_cons_of_pos _ hp] at hr
        right
        rw [List.find?_cons_of_pos]
        · rw [Option.some_inj] at hr
          rw [hr]
        · rw [hpf, hp]
      · rw [List.find?_cons_of_neg _ hp] at hr
        left
        rw [List.find?_cons_of_neg, hr]
        rw [hpf]
        exact hp
    · rw [updateFirst, if_neg hq]
      by_cases hp : pv c = true
      · rw [List.find?_cons_of_pos _ hp] at hr ⊢
        left
        exact hr
      · rw [List.find?_cons_of_neg _ hp] at hr
        rw [List.find?_cons_of_neg _ hp]
        exact ih hr

theorem ledger_at_most_one_live (codes : List OneTimeCode) (now : Nat)
    (h : LedgerReach codes now) :
    codes.countP (fun c => c.isLive now) ≤ 1 := by
  induction h with
  | init => simp
  | issue codes t v now _ _ _ =>
    rw [otpIssue_countP_live]
  | verify codes t cand now _ hle ih =>
    calc ((otpVerify codes cand now).1).countP (fun c => c.isLive now)
        ≤ codes.countP (fun c => c.isLive now) :=
          otpVerify_countP_live_le codes cand now now
      _ ≤ codes.countP (fun c => c.isLive t) :=
          List.countP_mono_left (fun c _ hc => isLive_mono c t now hle hc)
      _ ≤ 1 := ih
  | tick codes t now _ hle ih =>
    calc codes.countP (fun c => c.isLive now)
        ≤ codes.countP (fun c => c.isLive t) :=
          List.countP_mono_left (fun c _ hc => isLive_mono c t now hle hc)
      _ ≤ 1 := ih

theorem recordFailedLogin_failedCount (now : Nat) (b : Account) :
    (recordFailedLogin now b).failedCount = b.failedCount + 1 := by
  unfold recordFailedLogin
  by_cases h : 5 ≤ b.failedCount + 1 <;> simp [h]

theorem recordFailedLogin_passwordHash (now : Nat) (b : Account) :
    (recordFailedLogin now b).passwordHash = b.passwordHash := by
  unfold recordFailedLogin
  by_cases h : 5 ≤ b.failedCount + 1 <;> simp [h]

theorem recordFailedLogin_status_lt (now : Nat) (b : Account) (h : b.failedCount + 1 < 5) :
    (recordFailedLogin now b).status = b.status := by
  have h' : ¬ 5 ≤ b.failedCount + 1 := by omega
  simp [recordFailedLogin, h']

theorem recordFailedLogin_status_hit (now : Nat) (b : Account) (h : 5 ≤ b.failedCount + 1) :
    (recordFailedLogin now b).status = AccountStatus.locked := by
  simp [recordFailedLogin, h]

theorem recordFailedLogin_lockExpiry_hit (now : Nat) (b : Account) (h : 5 ≤ b.failedCount + 1) :
    (recordFailedLogin now b).lockExpiry = some (now + 900) := by
  simp [recordFailedLogin, h]

theorem setAccount_get_self (st : AuthState) (k : String) (a : Account) :
    (st.setAccount k a).accounts k = some a := by
  simp [AuthState.setAccount]

theorem setCodes_get_self (st : AuthState) (k : String) (cs : List OneTimeCode) :
    (st.setCodes k cs).codes k = cs := by
  simp [AuthState.setCodes]

theorem login_none (st : AuthState) (e pw : String) (now : Nat)
    (hk : st.accounts (normalizeEmail e) = none) :
    login st e pw now = (st, LoginResult.invalidCredentials) := by
  simp [login, hk]

theorem login_step_active (st : AuthState) (e pw : String) (now : Nat) (a : Account)
    (hk : st.accounts (normalizeEmail e) = some a)
    (hst : a.status = AccountStatus.active) :
    login st e pw now = loginVerify st (normalizeEmail e) a pw now := by
  simp [login, hk, hst]

theorem login_locked_wait (st : AuthState) (e pw : String) (now : Nat) (a : Account) (x : Nat)
    (hk : st.accounts (normalizeEmail e) = some a)
    (hst : a.status = AccountStatus.locked)
    (hx : a.lockExpiry = some x) (h : now < x) :
    login st e pw now = (st, LoginResult.lockedErr x) := by
  simp [login, hk, hst, hx, h]

theorem login_locked_unlock (st : AuthState) (e pw : String) (now : Nat) (a : Account) (x : Nat)
    (hk : st.accounts (normalizeEmail e) = some a)
    (hst : a.status = AccountStatus.locked)
    (hx : a.lockExpiry = some x) (h : ¬ now < x) :
    login st e pw now = loginVerify st (normalizeEmail e)
      { a with status := AccountStatus.active, lockExpiry := none } pw now := by
  simp [login, hk, hst, hx, h]

theorem loginVerify_fail (st : AuthState) (k : String) (a : Account) (pw : String) (now : Nat)
    (h : ¬ verifyPassword a pw) :
    loginVerify st k a pw now
      = (st.setAccount k (recordFailedLogin now a), LoginResult.invalidCredentials) := by
  simp [loginVerify, h]

theorem loginVerify_ok (st : AuthState) (k : String) (a : Account) (pw : String) (now : Nat)
    (h : verifyPassword a pw) :
    loginVerify st k a pw now
      = (st.setAccount k (recordSuccessfulLogin a), LoginResult.ok (issueSession k now)) := by
  simp [loginVerify, h]

end Eventify

namespace Eventify

/-- C9: in any non-production environment `getCORSOptions` returns the
dynamic origin decision function, that function allows an absent or empty
Origin header, allows a non-empty origin exactly when it is in the
allowlist `[CLIENT_URL (default http://localhost:8080),
http://localhost:3000, http://localhost:8080, http://127.0.0.1:3000,
http://127.0.0.1:8080]`, and denies any other origin with the error
`CORS policy: Origin not allowed`. -/
theorem getCORSOptions_dev_origin_decision (env : Env)
    (hdev : envOr env.nodeEnv "development" ≠ "production") :
    (getCORSOptions env).origin = CORSOrigin.dynamic (devOriginDecision env) ∧
    allowedOrigins env =
      [ envOr env.clientUrl "http://localhost:8080", "http://localhost:3000"
      , "http://localhost:8080", "http://127.0.0.1:3000", "http://127.0.0.1:8080" ] ∧
    (∀ origin : Option String, (origin = none ∨ origin = some "") →
      devOriginDecision env origin = CorsDecision.allow) ∧
    (∀ s : String, s ≠ "" →
      (devOriginDecision env (some s) = CorsDecision.allow ↔ s ∈ allowedOrigins env) ∧
      (s ∉ allowedOrigins env →
        devOriginDecision env (some s) =
          CorsDecision.deny "CORS policy: Origin not allowed")) := by
  refine ⟨?_, rfl, ?_, ?_⟩
  · simp only [getCORSOptions, if_neg hdev]
  · rintro origin (rfl | rfl) <;> simp [devOriginDecision]
  · intro s hs
    constructor
    · constructor
      · intro h
        by_contra hmem
        simp [devOriginDecision, hs, hmem] at h
      · intro hmem
        simp [devOriginDecision, hmem]
    · intro hmem
      simp [devOriginDecision, hs, hmem]

/-- Witness for C9: a concrete unset environment is non-production; the
decision function allows `http://localhost:3000`, denies
`http://evil.example` with the CORS error, and allows a missing header. -/
theorem getCORSOptions_dev_origin_decision_witness :
    (envOr (Env.mk none none none).nodeEnv "development" ≠ "production") ∧
    ((getCORSOptions (Env.mk none none none)).origin =
        CORSOrigin.dynamic (devOriginDecision (Env.mk none none none)) ∧
      allowedOrigins (Env.mk none none none) =
        [ envOr (Env.mk none none none).clientUrl "http://localhost:8080"
        , "http://localhost:3000", "http://localhost:8080"
        , "http://127.0.0.1:3000", "http://127.0.0.1:8080" ] ∧
      (∀ origin : Option String, (origin = none ∨ origin = some "") →
        devOriginDecision (Env.mk none none none) origin = CorsDecision.allow) ∧
      (∀ s : String, s ≠ "" →
        (devOriginDecision (Env.mk none none none) (some s) = CorsDecision.allow ↔
          s ∈ allowedOrigins (Env.mk none none none)) ∧
        (s ∉ allowedOrigins (Env.mk none none none) →
          devOriginDecision (Env.mk none none none) (some s) =
            CorsDecision.deny "CORS policy: Origin not allowed"))) :=
  ⟨by decide, getCORSOptions_dev_origin_decision (Env.mk none none none) (by decide)⟩

/-- C10: `corsErrorHandler` sends the 403 JSON response if and only if the
error message contains `CORS`; the response message is `Access denied`
exactly in production and the original message otherwise, and a non-CORS
error is passed unchanged to `next`. -/
theorem corsErrorHandler_spec (env : Env) (errMsg : String) :
    ((∃ m, corsErrorHandler env errMsg =
        HandlerOutcome.respond 403 "CORS policy violation" m) ↔
      strIncludes errMsg "CORS" = true) ∧
    (strIncludes errMsg "CORS" = true →
      corsErrorHandler env errMsg =
        HandlerOutcome.respond 403 "CORS policy violation"
          (if env.nodeEnv = some "production" then "Access denied" else errMsg)) ∧
    (strIncludes errMsg "CORS" = false →
      corsErrorHandler env errMsg = HandlerOutcome.passNext errMsg) := by
  refine ⟨⟨?_, ?_⟩, ?_, ?_⟩
  · rintro ⟨m, hm⟩
    by_contra h
    simp [corsErrorHandler, h] at hm
  · intro h
    refine ⟨if env.nodeEnv = some "production" then "Access denied" else errMsg, ?_⟩
    simp [corsErrorHandler, h]
  · intro h
    simp [corsErrorHandler, h]
  · intro h
    simp [corsErrorHandler, h]

/-- Witness for C10: a CORS-message error in development echoes the original
message with status 403; in production it is `Access denied`; a non-CORS
message goes to `next`. -/
theorem corsErrorHandler_spec_witness :
    corsErrorHandler (Env.mk none none none) "CORS policy: Origin not allowed" =
      HandlerOutcome.respond 403 "CORS policy violation"
        "CORS policy: Origin not allowed" ∧
    corsErrorHandler (Env.mk (some "production") none none)
        "CORS policy: Origin not allowed" =
      HandlerOutcome.respond 403 "CORS policy violation" "Access denied" ∧
    corsErrorHandler (Env.mk none none none) "boom" =
      HandlerOutcome.passNext "boom" := by
  refine ⟨?_, ?_, ?_⟩
  · exact (corsErrorHandler_spec (Env.mk none none none)
      "CORS policy: Origin not allowed").2.1 (by decide)
  · exact (corsErrorHandler_spec (Env.mk (some "production") none none)
      "CORS policy: Origin not allowed").2.1 (by decide)
  · exact (corsErrorHandler_spec (Env.mk none none none) "boom").2.2 (by decide)

/-- C3: after every ledger operation an account holds at most one
unconsumed, unexpired OneTimeCode, and issuing a new code supersedes any
prior code: verifying a previously issued code value afterwards fails with
Expired or NotFound and never returns Success. -/
theorem otp_single_live_supersede :
    (∀ (codes : List OneTimeCode) (now : Nat), LedgerReach codes now →
      codes.countP (fun c => c.isLive now) ≤ 1) ∧
    (∀ (codes : List OneTimeCode) (v : String) (now now' : Nat) (cand : String),
      cand ≠ v → (∃ r ∈ codes, r.value = cand) →
      ((otpVerify (otpIssue codes v now) cand now').2 = VerifyResult.expired ∨
        (otpVerify (otpIssue codes v now) cand now').2 = VerifyResult.codeNotFound) ∧
      (otpVerify (otpIssue codes v now) cand now').2 ≠ VerifyResult.success) := by
  constructor
  · exact fun codes now h => ledger_at_most_one_live codes now h
  · intro codes v now now' cand hne hex
    have hfind : (otpIssue codes v now).find? (fun r => decide (r.value = cand))
        = (codes.map supersede).find? (fun r => decide (r.value = cand)) := by
      unfold otpIssue
      rw [List.find?_cons_of_neg]
      simp only [decide_eq_true_eq]
      exact fun h => hne h.symm
    obtain ⟨r0, hr0mem, hr0val⟩ := hex
    have hsome : ((codes.map supersede).find? (fun r => decide (r.value = cand))).isSome := by
      rw [List.find?_isSome]
      exact ⟨supersede r0, List.mem_map_of_mem _ hr0mem, by simp [supersede_value, hr0val]⟩
    obtain ⟨rr, hrr⟩ := Option.isSome_iff_exists.mp hsome
    have hrrmem : rr ∈ codes.map supersede := List.mem_of_find?_eq_some hrr
    obtain ⟨c0, _, hc0eq⟩ := List.mem_map.mp hrrmem
    have hvfind : (otpIssue codes v now).find? (fun r => decide (r.value = cand)) = some rr := by
      rw [hfind, hrr]
    by_cases hcons : rr.consumed
    · have hred : otpVerify (otpIssue codes v now) cand now'
          = (otpIssue codes v now, VerifyResult.codeNotFound) := by
        unfold otpVerify
        rw [hvfind]
        simp [hcons]
      rw [hred]
      exact ⟨Or.inr rfl, by simp⟩
    · have hexp : rr.expiresAt = 0 := by
        by_cases h0 : c0.consumed
        · exact absurd (by rw [← hc0eq]; simp [supersede, h0]) hcons
        · rw [← hc0eq]
          simp [supersede, h0]
      have hred : otpVerify (otpIssue codes v now) cand now'
          = (otpIssue codes v now, VerifyResult.expired) := by
        unfold otpVerify
        rw [hvfind]
        simp [hcons, hexp]
      rw [hred]
      exact ⟨Or.inl rfl, by simp⟩

/-- Witness for C3: the ledger reached by a single issue holds one live
code; after re-issuing, the old value `111111` verifies as Expired, not
Success. -/
theorem otp_single_live_supersede_witness :
    ((otpIssue [] "111111" 0).countP (fun c => c.isLive 0) ≤ 1) ∧
    (((otpVerify (otpIssue [⟨"111111", 0, 600, 0, false⟩] "222222" 10) "111111" 10).2
          = VerifyResult.expired ∨
      (otpVerify (otpIssue [⟨"111111", 0, 600, 0, false⟩] "222222" 10) "111111" 10).2
          = VerifyResult.codeNotFound) ∧
      (otpVerify (otpIssue [⟨"111111", 0, 600, 0, false⟩] "222222" 10) "111111" 10).2
          ≠ VerifyResult.success) :=
  ⟨otp_single_live_supersede.1 (otpIssue [] "111111" 0) 0
      (LedgerReach.issue [] 0 "111111" 0 LedgerReach.init (le_refl 0)),
   otp_single_live_supersede.2 [⟨"111111", 0, 600, 0, false⟩] "222222" 10 10 "111111"
      (by decide) ⟨⟨"111111", 0, 600, 0, false⟩, by simp, rfl⟩⟩

/-- C4: a successfully verified OneTimeCode is marked consumed; verifying
the same code for the same account afterwards fails with NotFound and can
never return Success again, and the consumed mark survives any further
verification calls. -/
theorem otp_no_replay :
    (∀ (codes : List OneTimeCode) (cand : String) (now : Nat),
      (otpVerify codes cand now).2 = VerifyResult.success →
      firstMatchConsumed (otpVerify codes cand now).1 cand) ∧
    (∀ (codes : List OneTimeCode) (cand : String) (now : Nat),
      firstMatchConsumed codes cand →
      (otpVerify codes cand now).2 = VerifyResult.codeNotFound ∧
      (otpVerify codes cand now).2 ≠ VerifyResult.success) ∧
    (∀ (codes : List OneTimeCode) (cand other : String) (now : Nat),
      firstMatchConsumed codes cand →
      firstMatchConsumed (otpVerify codes other now).1 cand) := by
  refine ⟨?_, ?_, ?_⟩
  · intro codes cand now hsucc
    cases hf : codes.find? (fun x => decide (x.value = cand)) with
    | none =>
      exfalso
      unfold otpVerify at hsucc
      rw [hf] at hsucc
      cases hl : codes.find? (fun r => r.isLive now) with
      | some live =>
        rw [hl] at hsucc
        by_cases h4 : 5 ≤ live.attempts + 1 <;> simp [h4] at hsucc
      | none =>
        rw [hl] at hsucc
        simp at hsucc
    | some r =>
      by_cases h1 : r.consumed
      · exfalso
        unfold otpVerify at hsucc
        rw [hf] at hsucc
        simp [h1] at hsucc
      by_cases h2 : r.expiresAt ≤ now
      · exfalso
        unfold otpVerify at hsucc
        rw [hf] at hsucc
        simp [h1, h2] at hsucc
      by_cases h3 : 5 ≤ r.attempts
      · exfalso
        unfold otpVerify at hsucc
        rw [hf] at hsucc
        simp [h1, h2, h3] at hsucc
      · have hred : otpVerify codes cand now =
            (updateFirst (fun x => decide (x.value = cand))
              (fun x => { x with attempts := x.attempts + 1, consumed := true }) codes,
             VerifyResult.success) := by
          unfold otpVerify
          rw [hf]
          simp [h1, h2, h3]
        rw [hred]
        refine ⟨{ r with attempts := r.attempts + 1, consumed := true }, ?_, rfl⟩
        rw [find?_updateFirst_self]
        · rw [hf]
          rfl
        · intro c hc
          exact hc
  · intro codes cand now hfm
    obtain ⟨r, hr, hc⟩ := hfm
    have hred : otpVerify codes cand now = (codes, VerifyResult.codeNotFound) := by
      unfold otpVerify
      rw [hr]
      simp [hc]
    rw [hred]
    exact ⟨rfl, by simp⟩
  · intro codes cand other now hfm
    obtain ⟨r, hr, hcons⟩ := hfm
    have hpres : ∀ (q : OneTimeCode → Bool) (f : OneTimeCode → OneTimeCode),
        (∀ c, ((fun x => decide (x.value = cand)) (f c)) = ((fun x => decide (x.value = cand)) c)) →
        (∀ c, c.consumed = true → (f c).consumed = true) →
        firstMatchConsumed (updateFirst q f codes) cand := by
      intro q f hpf hcmono
      rcases find?_updateFirst_mem _ q f codes r hpf hr with h | h
      · exact ⟨r, h, hcons⟩
      · exact ⟨f r, h, hcmono r hcons⟩
    unfold otpVerify
    cases hf : codes.find? (fun x => decide (x.value = other)) with
    | some r2 =>
      by_cases h1 : r2.consumed
      · simp only [h1, if_true]
        exact ⟨r, hr, hcons⟩
      by_cases h2 : r2.expiresAt ≤ now
      · simp only [h1, h2, if_true, if_false, Bool.false_eq_true]
        exact ⟨r, hr, hcons⟩
      by_cases h3 : 5 ≤ r2.attempts
      · simp only [h1, h2, h3, if_true, if_false, Bool.false_eq_true]
        exact hpres _ _ (fun c => rfl) (fun c hcc => hcc)
      · simp only [h1, h2, h3, if_true, if_false, Bool.false_eq_true]
        exact hpres _ _ (fun c => rfl) (fun c hcc => rfl)
    | none =>
      cases hl : codes.find? (fun r => r.isLive now) with
      | some live =>
        by_cases h4 : 5 ≤ live.attempts + 1 <;>
          simp only [h4, if_true, if_false] <;>
          exact hpres _ _ (fun c => rfl) (fun c hcc => hcc)
      | none => exact ⟨r, hr, hcons⟩

/-- Witness for C4: `123456` verifies successfully once; replaying it fails
with NotFound and the consumed mark survives a later verification of a
different candidate. -/
theorem otp_no_replay_witness :
    firstMatchConsumed (otpVerify [⟨"123456", 0, 600, 0, false⟩] "123456" 0).1 "123456" ∧
    ((otpVerify (otpVerify [⟨"123456", 0, 600, 0, false⟩] "123456" 0).1 "123456" 1).2
        = VerifyResult.codeNotFound ∧
      (otpVerify (otpVerify [⟨"123456", 0, 600, 0, false⟩] "123456" 0).1 "123456" 1).2
        ≠ VerifyResult.success) ∧
    firstMatchConsumed
      (otpVerify (otpVerify [⟨"123456", 0, 600, 0, false⟩] "123456" 0).1 "000000" 2).1
      "123456" := by
  have h1 := otp_no_replay.1 [⟨"123456", 0, 600, 0, false⟩] "123456" 0 (by decide)
  exact ⟨h1, otp_no_replay.2.1 _ "123456" 1 h1, otp_no_replay.2.2 _ "123456" "000000" 2 h1⟩

/-- C5: a verification call resolved against the account's live code
increments that code's attempt counter regardless of the outcome (wrong
value, exhausted, or success); once 5 failed attempts are recorded every
such call returns AttemptsExhausted even for the correct value; and a
newly issued code verifies successfully again (fresh counter). -/
theorem otp_attempt_limit :
    (∀ (codes : List OneTimeCode) (cand : String) (now : Nat) (live : OneTimeCode),
      codes.find? (fun x => decide (x.value = cand)) = none →
      codes.find? (fun r => r.isLive now) = some live →
      ((otpVerify codes cand now).1.find? (fun r => r.isLive now)
          = some { live with attempts := live.attempts + 1 }) ∧
      (otpVerify codes cand now).2 =
        (if 5 ≤ live.attempts + 1 then VerifyResult.attemptsExhausted
         else VerifyResult.mismatch)) ∧
    (∀ (codes : List OneTimeCode) (cand : String) (now : Nat) (r : OneTimeCode),
      codes.find? (fun x => decide (x.value = cand)) = some r →
      r.consumed = false → now < r.expiresAt →
      ((otpVerify codes cand now).2 =
        (if 5 ≤ r.attempts then VerifyResult.attemptsExhausted else VerifyResult.success)) ∧
      ((otpVerify codes cand now).1.find? (fun x => decide (x.value = cand)) =
        some (if 5 ≤ r.attempts then { r with attempts := r.attempts + 1 }
              else { r with attempts := r.attempts + 1, consumed := true }))) ∧
    (∀ (codes : List OneTimeCode) (v : String) (now now' : Nat), now' < now + 600 →
      (otpVerify (otpIssue codes v now) v now').2 = VerifyResult.success) := by
  refine ⟨?_, ?_, ?_⟩
  · intro codes cand now live hnone hlive
    have hred : otpVerify codes cand now =
        (updateFirst (fun r => r.isLive now)
          (fun r => { r with attempts := r.attempts + 1 }) codes,
         if 5 ≤ live.attempts + 1 then VerifyResult.attemptsExhausted
         else VerifyResult.mismatch) := by
      unfold otpVerify
      rw [hnone, hlive]
      by_cases h4 : 5 ≤ live.attempts + 1 <;> simp [h4]
    rw [hred]
    refine ⟨?_, rfl⟩
    rw [find?_updateFirst_self]
    · rw [hlive]
      rfl
    · intro c hc
      exact hc
  · intro codes cand now r hf hcons hexp
    have hnle : ¬ r.expiresAt ≤ now := Nat.not_le.mpr hexp
    by_cases h3 : 5 ≤ r.attempts
    · have hred : otpVerify codes cand now =
          (updateFirst (fun x => decide (x.value = cand))
            (fun x => { x with attempts := x.attempts + 1 }) codes,
           VerifyResult.attemptsExhausted) := by
        unfold otpVerify
        rw [hf]
        simp [hcons, hnle, h3]
      rw [hred]
      refine ⟨by simp [h3], ?_⟩
      rw [find?_updateFirst_self, hf, if_pos h3]
      · rfl
      · intro c hc
        exact hc
    · have hred : otpVerify codes cand now =
          (updateFirst (fun x => decide (x.value = cand))
            (fun x => { x with attempts := x.attempts + 1, consumed := true }) codes,
           VerifyResult.success) := by
        unfold otpVerify
        rw [hf]
        simp [hcons, hnle, h3]
      rw [hred]
      refine ⟨by simp [h3], ?_⟩
      rw [find?_updateFirst_self, hf, if_neg h3]
      · rfl
      · intro c hc
        exact hc
  · intro codes v now now' hlt
    have hf : (otpIssue codes v now).find? (fun x => decide (x.value = v))
        = some { value := v, issuedAt := now, expiresAt := now + 600
               , attempts := 0, consumed := false } := by
      unfold otpIssue
      rw [List.find?_cons_of_pos]
      simp
    have hnle : ¬ (now + 600 ≤ now') := Nat.not_le.mpr hlt
    unfold otpVerify
    rw [hf]
    simp [hnle]

/-- Witness for C5: a wrong candidate against the live code increments its
counter and reports Mismatch; the correct value on a fresh code succeeds
with the counter incremented; a re-issued code verifies successfully. -/
theorem otp_attempt_limit_witness :
    (((otpVerify [⟨"111111", 0, 600, 0, false⟩] "000000" 0).1.find?
        (fun r => r.isLive 0) = some ⟨"111111", 0, 600, 1, false⟩) ∧
      (otpVerify [⟨"111111", 0, 600, 0, false⟩] "000000" 0).2 =
        (if 5 ≤ 0 + 1 then VerifyResult.attemptsExhausted else VerifyResult.mismatch)) ∧
    (((otpVerify [⟨"111111", 0, 600, 0, false⟩] "111111" 0).2 =
        (if 5 ≤ 0 then VerifyResult.attemptsExhausted else VerifyResult.success)) ∧
      ((otpVerify [⟨"111111", 0, 600, 0, false⟩] "111111" 0).1.find?
          (fun x => decide (x.value = "111111")) =
        some (if 5 ≤ 0 then (⟨"111111", 0, 600, 1, false⟩ : OneTimeCode)
              else ⟨"111111", 0, 600, 1, true⟩))) ∧
    (otpVerify (otpIssue [⟨"111111", 0, 600, 5, false⟩] "222222" 50) "222222" 100).2
      = VerifyResult.success := by
  refine ⟨?_, ?_, ?_⟩
  · exact otp_attempt_limit.1 [⟨"111111", 0, 600, 0, false⟩] "000000" 0
      ⟨"111111", 0, 600, 0, false⟩ (by decide) (by decide)
  · exact otp_attempt_limit.2.1 [⟨"111111", 0, 600, 0, false⟩] "111111" 0
      ⟨"111111", 0, 600, 0, false⟩ (by decide) (by decide) (by decide)
  · exact otp_attempt_limit.2.2 [⟨"111111", 0, 600, 5, false⟩] "222222" 50 100 (by decide)

/-- C1: five consecutive failed logins lock the account with lock-expiry
15 minutes after the fifth attempt; while the lock-expiry is in the future
even the correct password fails with the Locked error carrying that
instant and leaves the state unchanged; once it has elapsed, a correct
login auto-unlocks the account, succeeds, and resets the counter. -/
theorem login_lockout_policy (st : AuthState) (e wrongPw goodPw : String) (a : Account)
    (t1 t2 t3 t4 t5 t6 t7 : Nat)
    (hk : st.accounts (normalizeEmail e) = some a)
    (hst : a.status = AccountStatus.active)
    (hfc : a.failedCount = 0)
    (hw : ¬ verifyPassword a wrongPw)
    (hg : verifyPassword a goodPw)
    (ht6 : t6 < t5 + 900)
    (ht7 : t5 + 900 ≤ t7) :
    ∃ a5, (loginN st e wrongPw [t1, t2, t3, t4, t5]).accounts (normalizeEmail e) = some a5 ∧
      a5.status = AccountStatus.locked ∧
      a5.lockExpiry = some (t5 + 900) ∧
      a5.failedCount = 5 ∧
      (login (loginN st e wrongPw [t1, t2, t3, t4, t5]) e goodPw t6).2
        = LoginResult.lockedErr (t5 + 900) ∧
      (login (loginN st e wrongPw [t1, t2, t3, t4, t5]) e goodPw t6).1
        = loginN st e wrongPw [t1, t2, t3, t4, t5] ∧
      (login (loginN st e wrongPw [t1, t2, t3, t4, t5]) e goodPw t7).2
        = LoginResult.ok (issueSession (normalizeEmail e) t7) ∧
      ∃ a7, (login (loginN st e wrongPw [t1, t2, t3, t4, t5]) e goodPw t7).1.accounts
          (normalizeEmail e) = some a7 ∧
        a7.status = AccountStatus.active ∧ a7.failedCount = 0 := by
  have hstep : ∀ (s : AuthState) (b : Account) (t : Nat),
      s.accounts (normalizeEmail e) = some b →
      b.status = AccountStatus.active → b.passwordHash = a.passwordHash →
      login s e wrongPw t
        = (s.setAccount (normalizeEmail e) (recordFailedLogin t b),
           LoginResult.invalidCredentials) := by
    intro s b t hsk hbst hbh
    have hbw : ¬ verifyPassword b wrongPw := by
      unfold verifyPassword at hw ⊢
      rw [hbh]
      exact hw
    rw [login_step_active s e wrongPw t b hsk hbst,
      loginVerify_fail s (normalizeEmail e) b wrongPw t hbw]
  -- attempt 1
  have h1 := hstep st a t1 hk hst rfl
  have ha1f : (recordFailedLogin t1 a).failedCount = 1 := by
    rw [recordFailedLogin_failedCount, hfc]
  have ha1s : (recordFailedLogin t1 a).status = AccountStatus.active := by
    rw [recordFailedLogin_status_lt _ _ (by omega)]
    exact hst
  have ha1h : (recordFailedLogin t1 a).passwordHash = a.passwordHash :=
    recordFailedLogin_passwordHash t1 a
  have hk1 : ((login st e wrongPw t1).1).accounts (normalizeEmail e)
      = some (recordFailedLogin t1 a) := by
    rw [h1]
    exact setAccount_get_self _ _ _
  -- attempt 2
  have h2 := hstep (login st e wrongPw t1).1 (recordFailedLogin t1 a) t2 hk1 ha1s ha1h
  have ha2f : (recordFailedLogin t2 (recordFailedLogin t1 a)).failedCount = 2 := by
    rw [recordFailedLogin_failedCount, ha1f]
  have ha2s : (recordFailedLogin t2 (recordFailedLogin t1 a)).status
      = AccountStatus.active := by
    rw [recordFailedLogin_status_lt _ _ (by omega)]
    exact ha1s
  have ha2h : (recordFailedLogin t2 (recordFailedLogin t1 a)).passwordHash
      = a.passwordHash := by
    rw [recordFailedLogin_passwordHash]
    exact ha1h
  have hk2 : ((login (login st e wrongPw t1).1 e wrongPw t2).1).accounts (normalizeEmail e)
      = some (recordFailedLogin t2 (recordFailedLogin t1 a)) := by
    rw [h2]
    exact setAccount_get_self _ _ _
  -- attempt 3
  have h3 := hstep (login (login st e wrongPw t1).1 e wrongPw t2).1
    (recordFailedLogin t2 (recordFailedLogin t1 a)) t3 hk2 ha2s ha2h
  have ha3f : (recordFailedLogin t3 (recordFailedLogin t2 (recordFailedLogin t1 a))).failedCount
      = 3 := by
    rw [recordFailedLogin_failedCount, ha2f]
  have ha3s : (recordFailedLogin t3 (recordFailedLogin t2 (recordFailedLogin t1 a))).status
      = AccountStatus.active := by
    rw [recordFailedLogin_status_lt _ _ (by omega)]
    exact ha2s
  have ha3h : (recordFailedLogin t3 (recordFailedLogin t2 (recordFailedLogin t1 a))).passwordHash
      = a.passwordHash := by
    rw [recordFailedLogin_passwordHash]
    exact ha2h
  have hk3 : ((login (login (login st e wrongPw t1).1 e wrongPw t2).1 e wrongPw t3).1).accounts
      (normalizeEmail e)
      = some (recordFailedLogin t3 (recordFailedLogin t2 (recordFailedLogin t1 a))) := by
    rw [h3]
    exact setAccount_get_self _ _ _
  -- attempt 4
  have h4 := hstep (login (login (login st e wrongPw t1).1 e wrongPw t2).1 e wrongPw t3).1
    (recordFailedLogin t3 (recordFailedLogin t2 (recordFailedLogin t1 a))) t4 hk3 ha3s ha3h
  have ha4f : (recordFailedLogin t4 (recordFailedLogin t3 (recordFailedLogin t2
      (recordFailedLogin t1 a)))).failedCount = 4 := by
    rw [recordFailedLogin_failedCount, ha3f]
  have ha4s : (recordFailedLogin t4 (recordFailedLogin t3 (recordFailedLogin t2
      (recordFailedLogin t1 a)))).status = AccountStatus.active := by
    rw [recordFailedLogin_status_lt _ _ (by omega)]
    exact ha3s
  have ha4h : (recordFailedLogin t4 (recordFailedLogin t3 (recordFailedLogin t2
      (recordFailedLogin t1 a)))).passwordHash = a.passwordHash := by
    rw [recordFailedLogin_passwordHash]
    exact ha3h
  have hk4 : ((login (login (login (login st e wrongPw t1).1 e wrongPw t2).1 e wrongPw t3).1
      e wrongPw t4).1).accounts (normalizeEmail e)
      = some (recordFailedLogin t4 (recordFailedLogin t3 (recordFailedLogin t2
        (recordFailedLogin t1 a)))) := by
    rw [h4]
    exact setAccount_get_self _ _ _
  -- attempt 5: the counter reaches 5 and the account locks
  have h5 := hstep (login (login (login (login st e wrongPw t1).1 e wrongPw t2).1
      e wrongPw t3).1 e wrongPw t4).1
    (recordFailedLogin t4 (recordFailedLogin t3 (recordFailedLogin t2
      (recordFailedLogin t1 a)))) t5 hk4 ha4s ha4h
  have ha5f : (recordFailedLogin t5 (recordFailedLogin t4 (recordFailedLogin t3
      (recordFailedLogin t2 (recordFailedLogin t1 a))))).failedCount = 5 := by
    rw [recordFailedLogin_failedCount, ha4f]
  have ha5s : (recordFailedLogin t5 (recordFailedLogin t4 (recordFailedLogin t3
      (recordFailedLogin t2 (recordFailedLogin t1 a))))).status = AccountStatus.locked := by
    rw [recordFailedLogin_status_hit _ _ (by omega)]
  have ha5l : (recordFailedLogin t5 (recordFailedLogin t4 (recordFailedLogin t3
      (recordFailedLogin t2 (recordFailedLogin t1 a))))).lockExpiry = some (t5 + 900) := by
    rw [recordFailedLogin_lockExpiry_hit _ _ (by omega)]
  have ha5h : (recordFailedLogin t5 (recordFailedLogin t4 (recordFailedLogin t3
      (recordFailedLogin t2 (recordFailedLogin t1 a))))).passwordHash = a.passwordHash := by
    rw [recordFailedLogin_passwordHash]
    exact ha4h
  have hfold : loginN st e wrongPw [t1, t2, t3, t4, t5]
      = (login (login (login (login (login st e wrongPw t1).1 e wrongPw t2).1
          e wrongPw t3).1 e wrongPw t4).1 e wrongPw t5).1 := by
    simp [loginN]
  have hk5 : (loginN st e wrongPw [t1, t2, t3, t4, t5]).accounts (normalizeEmail e)
      = some (recordFailedLogin t5 (recordFailedLogin t4 (recordFailedLogin t3
        (recordFailedLogin t2 (recordFailedLogin t1 a))))) := by
    rw [hfold, h5]
    exact setAccount_get_self _ _ _
  -- locked attempt at t6, unlock attempt at t7
  have h6 := login_locked_wait (loginN st e wrongPw [t1, t2, t3, t4, t5]) e goodPw t6
    (recordFailedLogin t5 (recordFailedLogin t4 (recordFailedLogin t3
      (recordFailedLogin t2 (recordFailedLogin t1 a))))) (t5 + 900) hk5 ha5s ha5l ht6
  have h7 := login_locked_unlock (loginN st e wrongPw [t1, t2, t3, t4, t5]) e goodPw t7
    (recordFailedLogin t5 (recordFailedLogin t4 (recordFailedLogin t3
      (recordFailedLogin t2 (recordFailedLogin t1 a))))) (t5 + 900) hk5 ha5s ha5l
    (Nat.not_lt.mpr ht7)
  have hga5 : verifyPassword
      { recordFailedLogin t5 (recordFailedLogin t4 (recordFailedLogin t3
          (recordFailedLogin t2 (recordFailedLogin t1 a)))) with
        status := AccountStatus.active, lockExpiry := none } goodPw := by
    unfold verifyPassword at hg ⊢
    show (recordFailedLogin t5 (recordFailedLogin t4 (recordFailedLogin t3
      (recordFailedLogin t2 (recordFailedLogin t1 a))))).passwordHash = hashPassword goodPw
    rw [ha5h]
    exact hg
  have h7' := loginVerify_ok (loginN st e wrongPw [t1, t2, t3, t4, t5]) (normalizeEmail e)
    { recordFailedLogin t5 (recordFailedLogin t4 (recordFailedLogin t3
        (recordFailedLogin t2 (recordFailedLogin t1 a)))) with
      status := AccountStatus.active, lockExpiry := none } goodPw t7 hga5
  refine ⟨_, hk5, ha5s, ha5l, ha5f, ?_, ?_, ?_, ?_⟩
  · rw [h6]
  · rw [h6]
  · rw [h7, h7']
  · refine ⟨recordSuccessfulLogin
      { recordFailedLogin t5 (recordFailedLogin t4 (recordFailedLogin t3
          (recordFailedLogin t2 (recordFailedLogin t1 a)))) with
        status := AccountStatus.active, lockExpiry := none }, ?_, ?_, ?_⟩
    · rw [h7, h7']
      exact setAccount_get_self _ _ _
    · simp [recordSuccessfulLogin]
    · simp [recordSuccessfulLogin]

/-- Witness for C1: a concrete Active account `a@x.com` is locked by five
wrong-password logins at instants 0..4 and unlocked by the correct
password at instant 904. -/
theorem login_lockout_policy_witness :
    ∃ a5, ((loginN
        ⟨fun k => if k = "a@x.com" then
            some ⟨"a@x.com", "Alice", hashPassword "Secret123!",
              AccountStatus.active, 0, none⟩ else none, fun _ => []⟩
        "a@x.com" "nope" [0, 1, 2, 3, 4]).accounts (normalizeEmail "a@x.com") = some a5) ∧
      a5.status = AccountStatus.locked ∧
      a5.lockExpiry = some (4 + 900) ∧
      a5.failedCount = 5 ∧
      (login (loginN
        ⟨fun k => if k = "a@x.com" then
            some ⟨"a@x.com", "Alice", hashPassword "Secret123!",
              AccountStatus.active, 0, none⟩ else none, fun _ => []⟩
        "a@x.com" "nope" [0, 1, 2, 3, 4]) "a@x.com" "Secret123!" 100).2
        = LoginResult.lockedErr (4 + 900) ∧
      (login (loginN
        ⟨fun k => if k = "a@x.com" then
            some ⟨"a@x.com", "Alice", hashPassword "Secret123!",
              AccountStatus.active, 0, none⟩ else none, fun _ => []⟩
        "a@x.com" "nope" [0, 1, 2, 3, 4]) "a@x.com" "Secret123!" 100).1
        = loginN
        ⟨fun k => if k = "a@x.com" then
            some ⟨"a@x.com", "Alice", hashPassword "Secret123!",
              AccountStatus.active, 0, none⟩ else none, fun _ => []⟩
        "a@x.com" "nope" [0, 1, 2, 3, 4] ∧
      (login (loginN
        ⟨fun k => if k = "a@x.com" then
            some ⟨"a@x.com", "Alice", hashPassword "Secret123!",
              AccountStatus.active, 0, none⟩ else none, fun _ => []⟩
        "a@x.com" "nope" [0, 1, 2, 3, 4]) "a@x.com" "Secret123!" 904).2
        = LoginResult.ok (issueSession (normalizeEmail "a@x.com") 904) ∧
      ∃ a7, (login (loginN
        ⟨fun k => if k = "a@x.com" then
            some ⟨"a@x.com", "Alice", hashPassword "Secret123!",
              AccountStatus.active, 0, none⟩ else none, fun _ => []⟩
        "a@x.com" "nope" [0, 1, 2, 3, 4]) "a@x.com" "Secret123!" 904).1.accounts
          (normalizeEmail "a@x.com") = some a7 ∧
        a7.status = AccountStatus.active ∧ a7.failedCount = 0 :=
  login_lockout_policy
    ⟨fun k => if k = "a@x.com" then
        some ⟨"a@x.com", "Alice", hashPassword "Secret123!",
          AccountStatus.active, 0, none⟩ else none, fun _ => []⟩
    "a@x.com" "nope" "Secret123!"
    ⟨"a@x.com", "Alice", hashPassword "Secret123!", AccountStatus.active, 0, none⟩
    0 1 2 3 4 100 904
    (by decide) rfl rfl (by decide) rfl (by decide) (by decide)

/-- C6: login failures for a missing account and for a wrong password on an
existing Active account surface as the identical generic
InvalidCredentials result, so the caller cannot tell the cases apart; only
the Locked case is distinguishable, carrying the lock-expiry instant. -/
theorem login_enumeration_resistant :
    (∀ (st : AuthState) (e pw : String) (now : Nat),
      st.accounts (normalizeEmail e) = none →
      login st e pw now = (st, LoginResult.invalidCredentials)) ∧
    (∀ (st : AuthState) (e pw : String) (now : Nat) (a : Account),
      st.accounts (normalizeEmail e) = some a → a.status = AccountStatus.active →
      ¬ verifyPassword a pw →
      (login st e pw now).2 = LoginResult.invalidCredentials) ∧
    (∀ (st st' : AuthState) (e e' pw pw' : String) (now now' : Nat) (a : Account),
      st.accounts (normalizeEmail e) = none →
      st'.accounts (normalizeEmail e') = some a → a.status = AccountStatus.active →
      ¬ verifyPassword a pw' →
      (login st e pw now).2 = (login st' e' pw' now').2) ∧
    (∀ (st : AuthState) (e pw : String) (now : Nat) (a : Account) (x : Nat),
      st.accounts (normalizeEmail e) = some a → a.status = AccountStatus.locked →
      a.lockExpiry = some x → now < x →
      (login st e pw now).2 = LoginResult.lockedErr x) := by
  have hwrong : ∀ (st : AuthState) (e pw : String) (now : Nat) (a : Account),
      st.accounts (normalizeEmail e) = some a → a.status = AccountStatus.active →
      ¬ verifyPassword a pw →
      (login st e pw now).2 = LoginResult.invalidCredentials := by
    intro st e pw now a hk hst hpw
    rw [login_step_active st e pw now a hk hst,
      loginVerify_fail st (normalizeEmail e) a pw now hpw]
  refine ⟨?_, hwrong, ?_, ?_⟩
  · intro st e pw now hk
    exact login_none st e pw now hk
  · intro st st' e e' pw pw' now now' a hk hk' hst' hpw'
    rw [login_none st e pw now hk, hwrong st' e' pw' now' a hk' hst' hpw']
  · intro st e pw now a x hk hst hx hlt
    rw [login_locked_wait st e pw now a x hk hst hx hlt]

/-- Witness for C6: a login against an empty store and a wrong-password
login against a store holding `a@x.com` produce the same generic result,
and a locked account reports its lock-expiry. -/
theorem login_enumeration_resistant_witness :
    login ⟨fun _ => none, fun _ => []⟩ "b@x.com" "pw" 0
      = (⟨fun _ => none, fun _ => []⟩, LoginResult.invalidCredentials) ∧
    (login ⟨fun _ => none, fun _ => []⟩ "b@x.com" "pw" 0).2
      = (login
          ⟨fun k => if k = "a@x.com" then
              some ⟨"a@x.com", "Alice", hashPassword "Secret123!",
                AccountStatus.active, 0, none⟩ else none, fun _ => []⟩
          "a@x.com" "wrong" 7).2 ∧
    (login
        ⟨fun k => if k = "a@x.com" then
            some ⟨"a@x.com", "Alice", hashPassword "Secret123!",
              AccountStatus.locked, 5, some 500⟩ else none, fun _ => []⟩
        "a@x.com" "Secret123!" 100).2 = LoginResult.lockedErr 500 :=
  ⟨login_enumeration_resistant.1 ⟨fun _ => none, fun _ => []⟩ "b@x.com" "pw" 0 rfl,
   login_enumeration_resistant.2.2.1 ⟨fun _ => none, fun _ => []⟩
      ⟨fun k => if k = "a@x.com" then
          some ⟨"a@x.com", "Alice", hashPassword "Secret123!",
            AccountStatus.active, 0, none⟩ else none, fun _ => []⟩
      "b@x.com" "a@x.com" "pw" "wrong" 0 7
      ⟨"a@x.com", "Alice", hashPassword "Secret123!", AccountStatus.active, 0, none⟩
      rfl (by decide) rfl (by decide),
   login_enumeration_resistant.2.2.2
      ⟨fun k => if k = "a@x.com" then
          some ⟨"a@x.com", "Alice", hashPassword "Secret123!",
            AccountStatus.locked, 5, some 500⟩ else none, fun _ => []⟩
      "a@x.com" "Secret123!" 100
      ⟨"a@x.com", "Alice", hashPassword "Secret123!", AccountStatus.locked, 5, some 500⟩
      500 (by decide) rfl rfl (by decide)⟩

/-- C8: register fails with DuplicateEmail exactly when an Active account
already holds the normalized email; re-registering an Unverified account
keeps the account unchanged and just re-issues a code; and every
successful registration leaves an Unverified account with exactly one
live OneTimeCode. -/
theorem register_contract (st : AuthState) (email pw dn cv : String) (now : Nat) :
    ((register st email pw dn cv now).2 = RegisterResult.duplicateEmail ↔
      ∃ a, st.accounts (normalizeEmail email) = some a ∧
        a.status = AccountStatus.active) ∧
    (∀ a, st.accounts (normalizeEmail email) = some a →
      a.status = AccountStatus.unverified →
      (register st email pw dn cv now).2 = RegisterResult.ok ∧
      (register st email pw dn cv now).1.accounts (normalizeEmail email) = some a ∧
      (register st email pw dn cv now).1.codes (normalizeEmail email)
        = otpIssue (st.codes (normalizeEmail email)) cv now) ∧
    ((register st email pw dn cv now).2 = RegisterResult.ok →
      (∃ a, (register st email pw dn cv now).1.accounts (normalizeEmail email) = some a ∧
        a.status = AccountStatus.unverified) ∧
      ((register st email pw dn cv now).1.codes (normalizeEmail email)).countP
        (fun c => c.isLive now) = 1) := by
  cases hk : st.accounts (normalizeEmail email) with
  | none =>
    have hred : register st email pw dn cv now
        = ((st.setAccount (normalizeEmail email)
              (freshAccount (normalizeEmail email) pw dn)).setCodes
            (normalizeEmail email) (otpIssue (st.codes (normalizeEmail email)) cv now),
           RegisterResult.ok) := by
      simp [register, hk]
    refine ⟨?_, ?_, ?_⟩
    · simp only [hred]
      constructor
      · intro h
        exact absurd h (by simp)
      · rintro ⟨b, hb, _⟩
        exact absurd hb (by simp)
    · intro b hb
      exact absurd hb (by simp)
    · intro _
      constructor
      · refine ⟨freshAccount (normalizeEmail email) pw dn, ?_, rfl⟩
        simp only [hred]
        exact setAccount_get_self _ _ _
      · simp only [hred]
        rw [setCodes_get_self]
        exact otpIssue_countP_live _ _ _
  | some a =>
    cases hsa : a.status with
    | active =>
      have hred : register st email pw dn cv now = (st, RegisterResult.duplicateEmail) := by
        simp [register, hk, hsa]
      refine ⟨?_, ?_, ?_⟩
      · simp only [hred]
        exact ⟨fun _ => ⟨a, rfl, hsa⟩, fun _ => trivial⟩
      · intro b hb hbs
        have hab : a = b := Option.some.inj hb
        rw [← hab] at hbs
        exact absurd (hsa.symm.trans hbs) (by simp)
      · intro hok
        simp only [hred] at hok
        exact absurd hok (by simp)
    | unverified =>
      have hred : register st email pw dn cv now
          = (st.setCodes (normalizeEmail email)
              (otpIssue (st.codes (normalizeEmail email)) cv now), RegisterResult.ok) := by
        simp [register, hk, hsa]
      refine ⟨?_, ?_, ?_⟩
      · simp only [hred]
        constructor
        · intro h
          exact absurd h (by simp)
        · rintro ⟨b, hb, hbs⟩
          have hab : a = b := Option.some.inj hb
          rw [← hab] at hbs
          exact absurd (hsa.symm.trans hbs) (by simp)
      · intro b hb hbs
        have hab : a = b := Option.some.inj hb
        simp only [hred]
        refine ⟨trivial, ?_, setCodes_get_self _ _ _⟩
        exact hab ▸ hk
      · intro _
        refine ⟨⟨a, ?_, hsa⟩, ?_⟩
        · simp only [hred]
          exact hk
        · simp only [hred]
          rw [setCodes_get_self]
          exact otpIssue_countP_live _ _ _
    | locked =>
      have hred : register st email pw dn cv now
          = ((st.setAccount (normalizeEmail email)
                (freshAccount (normalizeEmail email) pw dn)).setCodes
              (normalizeEmail email) (otpIssue (st.codes (normalizeEmail email)) cv now),
             RegisterResult.ok) := by
        simp [register, hk, hsa]
      refine ⟨?_, ?_, ?_⟩
      · simp only [hred]
        constructor
        · intro h
          exact absurd h (by simp)
        · rintro ⟨b, hb, hbs⟩
          have hab : a = b := Option.some.inj hb
          rw [← hab] at hbs
          exact absurd (hsa.symm.trans hbs) (by simp)
      · intro b hb hbs
        have hab : a = b := Option.some.inj hb
        rw [← hab] at hbs
        exact absurd (hsa.symm.trans hbs) (by simp)
      · intro _
        constructor
        · refine ⟨freshAccount (normalizeEmail email) pw dn, ?_, rfl⟩
          simp only [hred]
          exact setAccount_get_self _ _ _
        · simp only [hred]
          rw [setCodes_get_self]
          exact otpIssue_countP_live _ _ _

/-- Witness for C8: registering a fresh email yields an Unverified account
with one live code; re-registering the unverified `a@x.com` keeps the
account and re-issues; registering over the Active `b@x.com` is a
duplicate. -/
theorem register_contract_witness :
    ((∃ a, (register ⟨fun _ => none, fun _ => []⟩ "A@X.com" "pw" "Alice" "123456" 0).1.accounts
        (normalizeEmail "A@X.com") = some a ∧ a.status = AccountStatus.unverified) ∧
      ((register ⟨fun _ => none, fun _ => []⟩ "A@X.com" "pw" "Alice" "123456" 0).1.codes
        (normalizeEmail "A@X.com")).countP (fun c => c.isLive 0) = 1) ∧
    ((register
        ⟨fun k => if k = "a@x.com" then
            some ⟨"a@x.com", "Alice", hashPassword "pw",
              AccountStatus.unverified, 0, none⟩ else none,
          fun _ => []⟩ "a@x.com" "pw2" "Alice" "654321" 9).2 = RegisterResult.ok ∧
      (register
        ⟨fun k => if k = "a@x.com" then
            some ⟨"a@x.com", "Alice", hashPassword "pw",
              AccountStatus.unverified, 0, none⟩ else none,
          fun _ => []⟩ "a@x.com" "pw2" "Alice" "654321" 9).1.accounts
          (normalizeEmail "a@x.com")
        = some ⟨"a@x.com", "Alice", hashPassword "pw",
            AccountStatus.unverified, 0, none⟩ ∧
      (register
        ⟨fun k => if k = "a@x.com" then
            some ⟨"a@x.com", "Alice", hashPassword "pw",
              AccountStatus.unverified, 0, none⟩ else none,
          fun _ => []⟩ "a@x.com" "pw2" "Alice" "654321" 9).1.codes
          (normalizeEmail "a@x.com")
        = otpIssue ((⟨fun k => if k = "a@x.com" then
            some ⟨"a@x.com", "Alice", hashPassword "pw",
              AccountStatus.unverified, 0, none⟩ else none,
          fun _ => []⟩ : AuthState).codes (normalizeEmail "a@x.com")) "654321" 9) ∧
    (register
        ⟨fun k => if k = "b@x.com" then
            some ⟨"b@x.com", "Bob", hashPassword "pw",
              AccountStatus.active, 0, none⟩ else none,
          fun _ => []⟩ "b@x.com" "pw" "Bob" "123456" 0).2
      = RegisterResult.duplicateEmail :=
  ⟨(register_contract ⟨fun _ => none, fun _ => []⟩ "A@X.com" "pw" "Alice" "123456" 0).2.2
      (by decide),
   (register_contract
      ⟨fun k => if k = "a@x.com" then
          some ⟨"a@x.com", "Alice", hashPassword "pw",
            AccountStatus.unverified, 0, none⟩ else none,
        fun _ => []⟩ "a@x.com" "pw2" "Alice" "654321" 9).2.1
      ⟨"a@x.com", "Alice", hashPassword "pw", AccountStatus.unverified, 0, none⟩
      (by decide) rfl,
   (register_contract
      ⟨fun k => if k = "b@x.com" then
          some ⟨"b@x.com", "Bob", hashPassword "pw",
            AccountStatus.active, 0, none⟩ else none,
        fun _ => []⟩ "b@x.com" "pw" "Bob" "123456" 0).1.mpr
      ⟨⟨"b@x.com", "Bob", hashPassword "pw", AccountStatus.active, 0, none⟩,
        by decide, rfl⟩⟩

/-- C2: for every event and session, each mutating action (Update, Delete,
InviteParticipants, RemoveParticipant) is allowed iff the session's
subject is the event's creator; a participant who is not the creator gets
Unauthorized, anyone else gets NotFound, and a denied mutation leaves the
event store unchanged. -/
theorem event_mutation_creator_only :
    (∀ (e : Event) (session : Session) (action : EventAction),
      action.isMutating = true →
      ((authorize action session (some e) = AuthzResult.allowed ↔
          session.subject = e.creator) ∧
        (session.subject ≠ e.creator → session.subject ∈ e.participants →
          authorize action session (some e) = AuthzResult.unauthorized) ∧
        (session.subject ≠ e.creator → session.subject ∉ e.participants →
          authorize action session (some e) = AuthzResult.notFound))) ∧
    (∀ (evs : Nat → Option Event) (session : Session) (i : Nat) (e : Event),
      evs i = some e → session.subject ≠ e.creator →
      (∀ p, (updateEvent evs session i p).1 = evs ∧
        ((updateEvent evs session i p).2 = EventResult.unauthorizedErr ∨
          (updateEvent evs session i p).2 = EventResult.notFoundErr)) ∧
      ((deleteEvent evs session i).1 = evs ∧
        ((deleteEvent evs session i).2 = EventResult.unauthorizedErr ∨
          (deleteEvent evs session i).2 = EventResult.notFoundErr)) ∧
      (∀ emails, (inviteParticipants evs session i emails).1 = evs ∧
        ((inviteParticipants evs session i emails).2 = EventResult.unauthorizedErr ∨
          (inviteParticipants evs session i emails).2 = EventResult.notFoundErr)) ∧
      (∀ aid, (removeParticipant evs session i aid).1 = evs ∧
        ((removeParticipant evs session i aid).2 = EventResult.unauthorizedErr ∨
          (removeParticipant evs session i aid).2 = EventResult.notFoundErr))) := by
  have hguard : ∀ (e : Event) (session : Session) (action : EventAction),
      action.isMutating = true →
      (session.subject = e.creator → authorize action session (some e) = AuthzResult.allowed) ∧
      (session.subject ≠ e.creator → session.subject ∈ e.participants →
        authorize action session (some e) = AuthzResult.unauthorized) ∧
      (session.subject ≠ e.creator → session.subject ∉ e.participants →
        authorize action session (some e) = AuthzResult.notFound) := by
    intro e session action hmut
    cases action with
    | read => simp [EventAction.isMutating] at hmut
    | update =>
      exact ⟨fun h => by simp [authorize, h],
        fun hne hmem => by simp [authorize, hne, hmem],
        fun hne hnmem => by simp [authorize, hne, hnmem]⟩
    | delete =>
      exact ⟨fun h => by simp [authorize, h],
        fun hne hmem => by simp [authorize, hne, hmem],
        fun hne hnmem => by simp [authorize, hne, hnmem]⟩
    | inviteParticipants =>
      exact ⟨fun h => by simp [authorize, h],
        fun hne hmem => by simp [authorize, hne, hmem],
        fun hne hnmem => by simp [authorize, hne, hnmem]⟩
    | removeParticipant =>
      exact ⟨fun h => by simp [authorize, h],
        fun hne hmem => by simp [authorize, hne, hmem],
        fun hne hnmem => by simp [authorize, hne, hnmem]⟩
  constructor
  · intro e session action hmut
    obtain ⟨hall, hunauth, hnf⟩ := hguard e session action hmut
    refine ⟨⟨?_, hall⟩, hunauth, hnf⟩
    intro hallow
    by_contra hne
    by_cases hmem : session.subject ∈ e.participants
    · rw [hunauth hne hmem] at hallow
      exact absurd hallow (by simp)
    · rw [hnf hne hmem] at hallow
      exact absurd hallow (by simp)
  · intro evs session i e hi hne
    have hauth : ∀ action : EventAction, action.isMutating = true →
        authorize action session (some e) = AuthzResult.unauthorized ∨
        authorize action session (some e) = AuthzResult.notFound := by
      intro action hmut
      obtain ⟨_, hunauth, hnf⟩ := hguard e session action hmut
      by_cases hmem : session.subject ∈ e.participants
      · exact Or.inl (hunauth hne hmem)
      · exact Or.inr (hnf hne hmem)
    refine ⟨?_, ?_, ?_, ?_⟩
    · intro p
      rcases hauth EventAction.update rfl with h | h <;>
        simp [updateEvent, hi, h]
    · rcases hauth EventAction.delete rfl with h | h <;>
        simp [deleteEvent, hi, h]
    · intro emails
      rcases hauth EventAction.inviteParticipants rfl with h | h <;>
        simp [inviteParticipants, hi, h]
    · intro aid
      rcases hauth EventAction.removeParticipant rfl with h | h <;>
        simp [removeParticipant, hi, h]

/-- Witness for C2: for a concrete event created by `a`, the participant
`b` may not update it (Unauthorized, store unchanged) and only `a` is
allowed to delete it. -/
theorem event_mutation_creator_only_witness :
    ((authorize EventAction.update ⟨"b", 0, 100⟩
        (some ⟨1, "Standup", none, 10, 20, "a", ["b"]⟩) = AuthzResult.allowed ↔
      ("b" : String) = "a") ∧
      (("b" : String) ≠ "a" → ("b" : String) ∈ ["b"] →
        authorize EventAction.update ⟨"b", 0, 100⟩
          (some ⟨1, "Standup", none, 10, 20, "a", ["b"]⟩) = AuthzResult.unauthorized) ∧
      (("b" : String) ≠ "a" → ("b" : String) ∉ ["b"] →
        authorize EventAction.update ⟨"b", 0, 100⟩
          (some ⟨1, "Standup", none, 10, 20, "a", ["b"]⟩) = AuthzResult.notFound)) ∧
    ((updateEvent (fun j => if j = 1 then some ⟨1, "Standup", none, 10, 20, "a", ["b"]⟩
        else none) ⟨"b", 0, 100⟩ 1 ⟨none, none, none, none⟩).1
      = (fun j => if j = 1 then some ⟨1, "Standup", none, 10, 20, "a", ["b"]⟩ else none) ∧
      ((updateEvent (fun j => if j = 1 then some ⟨1, "Standup", none, 10, 20, "a", ["b"]⟩
          else none) ⟨"b", 0, 100⟩ 1 ⟨none, none, none, none⟩).2
          = EventResult.unauthorizedErr ∨
        (updateEvent (fun j => if j = 1 then some ⟨1, "Standup", none, 10, 20, "a", ["b"]⟩
          else none) ⟨"b", 0, 100⟩ 1 ⟨none, none, none, none⟩).2
          = EventResult.notFoundErr)) :=
  ⟨(event_mutation_creator_only.1 ⟨1, "Standup", none, 10, 20, "a", ["b"]⟩
      ⟨"b", 0, 100⟩ EventAction.update rfl),
   ((event_mutation_creator_only.2
      (fun j => if j = 1 then some ⟨1, "Standup", none, 10, 20, "a", ["b"]⟩ else none)
      ⟨"b", 0, 100⟩ 1 ⟨1, "Standup", none, 10, 20, "a", ["b"]⟩
      (by decide) (by decide)).1 ⟨none, none, none, none⟩)⟩

/-- C7: creating or updating an event whose end instant is not strictly
after its start fails with ValidationError and persists nothing, and the
invariant `end > start` for every stored event is preserved by all five
event operations. -/
theorem event_dates_validated :
    (∀ (evs : Nat → Option Event) (session : Session) (newId : Nat) (title : String)
      (descr : Option String) (s t : Nat), t ≤ s →
      createEvent evs session newId title descr s t = (evs, EventResult.validationError)) ∧
    (∀ (evs : Nat → Option Event) (session : Session) (i : Nat) (p : EventPatch) (e : Event),
      evs i = some e → session.subject = e.creator →
      (applyPatch e p).endT ≤ (applyPatch e p).startT →
      updateEvent evs session i p = (evs, EventResult.validationError)) ∧
    (∀ (evs : Nat → Option Event) (session : Session) (newId : Nat) (title : String)
      (descr : Option String) (s t : Nat), EventsInvariant evs →
      EventsInvariant (createEvent evs session newId title descr s t).1) ∧
    (∀ (evs : Nat → Option Event) (session : Session) (i : Nat) (p : EventPatch),
      EventsInvariant evs → EventsInvariant (updateEvent evs session i p).1) ∧
    (∀ (evs : Nat → Option Event) (session : Session) (i : Nat),
      EventsInvariant evs → EventsInvariant (deleteEvent evs session i).1) ∧
    (∀ (evs : Nat → Option Event) (session : Session) (i : Nat) (emails : List String),
      EventsInvariant evs → EventsInvariant (inviteParticipants evs session i emails).1) ∧
    (∀ (evs : Nat → Option Event) (session : Session) (i : Nat) (aid : String),
      EventsInvariant evs → EventsInvariant (removeParticipant evs session i aid).1) := by
  have hset : ∀ (evs : Nat → Option Event) (i : Nat) (oe : Option Event),
      (∀ e, oe = some e → e.startT < e.endT) → EventsInvariant evs →
      EventsInvariant (setEvent evs i oe) := by
    intro evs i oe hoe hinv j e hj
    unfold setEvent at hj
    by_cases hji : j = i
    · rw [if_pos hji] at hj
      exact hoe e hj
    · rw [if_neg hji] at hj
      exact hinv j e hj
  refine ⟨?_, ?_, ?_, ?_, ?_, ?_, ?_⟩
  · intro evs session newId title descr s t h
    by_cases hv : validTitle title = false <;> simp [createEvent, hv, h]
  · intro evs session i p e hi hcr h
    by_cases hv : validTitle (applyPatch e p).title = false <;>
      simp [updateEvent, hi, authorize, hcr, hv, h]
  · intro evs session newId title descr s t hinv
    by_cases hv : validTitle title = false
    · simpa [createEvent, hv] using hinv
    by_cases hd : t ≤ s
    · simpa [createEvent, hv, hd] using hinv
    · have hred : createEvent evs session newId title descr s t
          = (setEvent evs newId (some
              { id := newId, title := title, description := descr, startT := s, endT := t
              , creator := session.subject, participants := [] }), EventResult.ok) := by
        simp [createEvent, hv, hd]
      rw [hred]
      refine hset _ _ _ ?_ hinv
      intro e he
      rw [Option.some_inj] at he
      rw [← he]
      show s < t
      omega
  · intro evs session i p hinv
    cases hi : evs i with
    | none => simpa [updateEvent, hi] using hinv
    | some e =>
      cases hauth : authorize EventAction.update session (some e) with
      | allowed =>
        by_cases hv : validTitle (applyPatch e p).title = false
        · simpa [updateEvent, hi, hauth, hv] using hinv
        by_cases hd : (applyPatch e p).endT ≤ (applyPatch e p).startT
        · simpa [updateEvent, hi, hauth, hv, hd] using hinv
        · have hred : (updateEvent evs session i p).1
              = setEvent evs i (some (applyPatch e p)) := by
            simp [updateEvent, hi, hauth, hv, hd]
          rw [hred]
          refine hset _ _ _ ?_ hinv
          intro e' he'
          rw [Option.some_inj] at he'
          rw [← he']
          omega
      | unauthorized => simpa [updateEvent, hi, hauth] using hinv
      | notFound => simpa [updateEvent, hi, hauth] using hinv
  · intro evs session i hinv
    cases hi : evs i with
    | none => simpa [deleteEvent, hi] using hinv
    | some e =>
      cases hauth : authorize EventAction.delete session (some e) with
      | allowed =>
        have hred : (deleteEvent evs session i).1 = setEvent evs i none := by
          simp [deleteEvent, hi, hauth]
        rw [hred]
        refine hset _ _ _ ?_ hinv
        intro e' he'
        exact absurd he' (by simp)
      | unauthorized => simpa [deleteEvent, hi, hauth] using hinv
      | notFound => simpa [deleteEvent, hi, hauth] using hinv
  · intro evs session i emails hinv
    cases hi : evs i with
    | none => simpa [inviteParticipants, hi] using hinv
    | some e =>
      cases hauth : authorize EventAction.inviteParticipants session (some e) with
      | allowed =>
        set ms := (emails.map normalizeEmail).eraseDups with hms
        by_cases h1 : ms.any (fun m => !validEmailSyntax m)
        · simpa [inviteParticipants, hi, hauth, ← hms, h1] using hinv
        by_cases h2 : e.creator ∈ ms
        · simpa [inviteParticipants, hi, hauth, ← hms, h1, h2] using hinv
        by_cases h3 : ms.any (fun m => decide (m ∈ e.participants))
        · simpa [inviteParticipants, hi, hauth, ← hms, h1, h2, h3] using hinv
        by_cases h4 : 1000 < e.participants.length + ms.length
        · simpa [inviteParticipants, hi, hauth, ← hms, h1, h2, h3, h4] using hinv
        · have hred : (inviteParticipants evs session i emails).1
              = setEvent evs i (some { e with participants := e.participants ++ ms }) := by
            simp [inviteParticipants, hi, hauth, ← hms, h1, h2, h3, h4]
          rw [hred]
          refine hset _ _ _ ?_ hinv
          intro e' he'
          rw [Option.some_inj] at he'
          rw [← he']
          have := hinv i e hi
          simpa using this
      | unauthorized => simpa [inviteParticipants, hi, hauth] using hinv
      | notFound => simpa [inviteParticipants, hi, hauth] using hinv
  · intro evs session i aid hinv
    cases hi : evs i with
    | none => simpa [removeParticipant, hi] using hinv
    | some e =>
      cases hauth : authorize EventAction.removeParticipant session (some e) with
      | allowed =>
        by_cases hmem : aid ∈ e.participants
        · have hred : (removeParticipant evs session i aid).1
              = setEvent evs i (some { e with participants := e.participants.erase aid }) := by
            simp [removeParticipant, hi, hauth, hmem]
          rw [hred]
          refine hset _ _ _ ?_ hinv
          intro e' he'
          rw [Option.some_inj] at he'
          rw [← he']
          have := hinv i e hi
          simpa using this
        · simpa [removeParticipant, hi, hauth, hmem] using hinv
      | unauthorized => simpa [removeParticipant, hi, hauth] using hinv
      | notFound => simpa [removeParticipant, hi, hauth] using hinv

/-- Witness for C7: creating an event ending before it starts fails with
ValidationError on a concrete store; the empty store's invariant is
preserved by that attempt. -/
theorem event_dates_validated_witness :
    createEvent (fun _ => none) ⟨"a", 0, 100⟩ 1 "Standup" none 10 5
      = ((fun _ => none), EventResult.validationError) ∧
    EventsInvariant (createEvent (fun _ => none) ⟨"a", 0, 100⟩ 1 "Standup" none 10 5).1 :=
  ⟨event_dates_validated.1 (fun _ => none) ⟨"a", 0, 100⟩ 1 "Standup" none 10 5 (by decide),
   event_dates_validated.2.2.1 (fun _ => none) ⟨"a", 0, 100⟩ 1 "Standup" none 10 5
      (fun i e hi => absurd hi (by simp))⟩

end Eventify
